import Mathlib

/-!
Shallow embedding of the CG14 framebuffer emulation (hw/sparc/cg14.c).

The device state is a single record; byte-addressed video memory is a
function `Nat → Nat` whose values are kept below 256 by the store
operations (mirroring `uint8_t`).  Register and memory accessors are
translated function-by-function from the C source; machine integers are
modelled as `Nat` with explicit `% 2 ^ w` truncation at the points where
the C code narrows a value (assignments into `uint8_t`, `uint16_t`,
`uint32_t` fields).  The host display surface is abstracted as its
pixel depth, its channel order flag, and a row/column indexed
framebuffer of 32-bit words; the `qemu_console_resize` and `dpy_update`
callbacks are reified as the `resized` and `presented` fields of the
refresh result.
-/

/-- State of the ADV7152 DAC emulation (`struct ADV7152_state`). -/
structure ADV7152_state where
  mode : Nat
  address : Nat
  rgb_seq : Int

/-- Device state (`CG14State`).  The C substructures `ctrl` and `timing`
are flattened into individual fields; `dirty` and `size_changed` are the
C `int` flags, modelled as `Bool`. -/
structure CG14State where
  vram : Nat → Nat
  vram_amask : Nat
  width : Nat
  height : Nat
  dirty : Bool
  size_changed : Bool
  mcr : Nat
  ppr : Nat
  dac : ADV7152_state
  hblank_start : Nat
  hblank_clear : Nat
  vblank_start : Nat
  vblank_clear : Nat
  xlut : Nat → Nat
  clut1 : Nat → Nat
  clut2 : Nat → Nat

/-- `MCR_PIXMODE_MASK`. -/
def MCR_PIXMODE_MASK : Nat := 0x30

/-- `CG14_MONID_DEFAULT` (= `CG14_MONID_1024x768`). -/
def CG14_MONID_DEFAULT : Nat := 0

/-- `ldub_p(s->vram + off)`: load one byte of video memory. -/
def ldub (s : CG14State) (off : Nat) : Nat := s.vram off % 256

/-- `stb_p(s->vram + off, val)`: store one byte of video memory. -/
def stb (s : CG14State) (off v : Nat) : CG14State :=
  { s with vram := fun j => if j = off then v % 256 else s.vram j }

/-- `stl_be_p(s->vram + off, val)`: big-endian store of a 32-bit word as
four byte stores, most significant byte first. -/
def stl_be (s : CG14State) (off v : Nat) : CG14State :=
  stb (stb (stb (stb s off (v >>> 24)) (off + 1) (v >>> 16)) (off + 2) (v >>> 8)) (off + 3) v

/-- `ldl_be_p(s->vram + off)`: big-endian load of a 32-bit word. -/
def ldl_be (s : CG14State) (off : Nat) : Nat :=
  ldub s off <<< 24 ||| ldub s (off + 1) <<< 16 ||| ldub s (off + 2) <<< 8 ||| ldub s (off + 3)

/-- `bgr_to_rgb`: swap the red and blue byte positions of a packed
`bgr` value. -/
def bgr_to_rgb (bgr : Nat) : Nat :=
  (bgr &&& 0x00FF00) ||| ((bgr &&& 0x0000FF) <<< 16) ||| ((bgr &&& 0xFF0000) >>> 16)

/-- Tail of the pixel loop of `cg14_draw_line32`:
`dval = is_bgr ? (abgr & 0xFFFFFF) : bgr_to_rgb(abgr)`. -/
def to_surface (is_bgr : Bool) (abgr : Nat) : Nat :=
  if is_bgr then abgr &&& 0xFFFFFF else bgr_to_rgb abgr

/-- One iteration of the pixel loop of `cg14_draw_line32`.  Given the
incoming `xlut_val` and the current source byte position, returns the
emitted 32-bit word, the outgoing `xlut_val`, and the next source
position.  `x = *src++`; in 8-bit mode `b = x`, otherwise `b = *src++`
and `xlut_val = s->xlut[x]`; in non-32-bit modes `r = g = b`, otherwise
`g = *src++; r = *src++`. -/
def cg14_pix_step (s : CG14State) (pixmode : Nat) (is_bgr : Bool)
    (xlut_val pos : Nat) : Nat × Nat × Nat :=
  let x := ldub s pos
  let b := if pixmode = 8 then x else ldub s (pos + 1)
  let xv := if pixmode = 8 then xlut_val else s.xlut x
  let p1 := if pixmode = 8 then pos + 1 else pos + 2
  let g := if pixmode ≠ 32 then b else ldub s p1
  let r := if pixmode ≠ 32 then b else ldub s (p1 + 1)
  let p2 := if pixmode ≠ 32 then p1 else p1 + 2
  let abgr := if xv = 0 then b <<< 16 ||| g <<< 8 ||| r
              else if xv = 0x40 then s.clut1 x
              else 0
  (to_surface is_bgr abgr, xv, p2)

/-- Pixel loop of `cg14_draw_line32`, iterated `n` times (the caller
passes `s->width`), threading `xlut_val` and the source position. -/
def cg14_draw_line_go (s : CG14State) (pixmode : Nat) (is_bgr : Bool) :
    Nat → Nat → Nat → List Nat
  | 0, _, _ => []
  | n + 1, xlut_val, pos =>
    let st := cg14_pix_step s pixmode is_bgr xlut_val pos
    st.1 :: cg14_draw_line_go s pixmode is_bgr n st.2.1 st.2.2

/-- `cg14_draw_line32`: render one scan line of `s->width` pixels
starting at video-memory byte position `pos`; `xlut_val` starts as
`s->ctrl.ppr`. -/
def cg14_draw_line32 (s : CG14State) (pixmode : Nat) (is_bgr : Bool) (pos : Nat) : List Nat :=
  cg14_draw_line_go s pixmode is_bgr s.width s.ppr pos

/-- Pixel-mode decode switch of `cg14_update_display`
(`s->ctrl.mcr & MCR_PIXMODE_MASK`). -/
def cg14_pixmode (mcr : Nat) : Nat :=
  if mcr &&& MCR_PIXMODE_MASK = 0x30 then 32
  else if mcr &&& MCR_PIXMODE_MASK = 0x20 then 16
  else 8

/-- Leading `size_changed` block of `cg14_update_display`: recompute the
geometry from the timing registers (as C `int` arithmetic, hence `Int`),
adopt it when it changed and is positive, and report the
`qemu_console_resize` request. -/
def cg14_resize_step (s : CG14State) : CG14State × Option (Nat × Nat) :=
  if s.size_changed then
    let new_width : Int := 4 * ((s.hblank_start : Int) - (s.hblank_clear : Int))
    let new_height : Int := (s.vblank_start : Int) - (s.vblank_clear : Int)
    let s0 := { s with size_changed := false }
    if (new_width ≠ (s.width : Int) ∨ new_height ≠ (s.height : Int)) ∧
        0 < new_width ∧ 0 < new_height then
      ({ s0 with width := new_width.toNat, height := new_height.toNat, dirty := true },
       some (new_width.toNat, new_height.toNat))
    else (s0, none)
  else (s, none)

/-- Result of one `cg14_update_display` call: the new device state, the
host framebuffer (row/column indexed 32-bit words), the resize request
issued to the console (if any), and whether `dpy_update` presented the
frame. -/
structure UpdateOut where
  st : CG14State
  fb : Nat → Nat → Nat
  resized : Option (Nat × Nat)
  presented : Bool

/-- `cg14_update_display`: process `size_changed`, bail out when not
dirty or the geometry is degenerate, refuse non-32-bit host surfaces,
otherwise repaint every scan line, present, and clear `dirty`. -/
def cg14_update_display (s : CG14State) (bpp : Nat) (is_bgr : Bool)
    (fb : Nat → Nat → Nat) : UpdateOut :=
  let sr := cg14_resize_step s
  let s1 := sr.1
  if s1.dirty = false ∨ s1.width = 0 ∨ s1.height = 0 then ⟨s1, fb, sr.2, false⟩
  else if bpp ≠ 32 then ⟨s1, fb, sr.2, false⟩
  else
    let pm := cg14_pixmode s1.mcr
    let fb2 := fun row col =>
      if row < s1.height ∧ col < s1.width then
        (cg14_draw_line32 s1 pm is_bgr (row * (s1.width * (pm / 8)))).getD col 0
      else fb row col
    ⟨{ s1 with dirty := false }, fb2, sr.2, true⟩

/-- `ADV7152_write`.  Note the reg-3 branch embeds the C source's
condition `if (!val & 0x01)` literally: by C precedence this parses as
`(!val) & 0x01`, which is true exactly when `val == 0`. -/
def ADV7152_write (d : ADV7152_state) (reg val : Nat) : ADV7152_state :=
  if reg = 0 then { d with address := val % 256, rgb_seq := 0 }
  else if reg = 1 then { d with rgb_seq := d.rgb_seq + 1 }
  else if reg = 2 then d
  else if reg = 3 then
    let d1 := if (if val = 0 then 1 else 0) &&& 0x01 ≠ 0 then { d with rgb_seq := 0 } else d
    { d1 with mode := val % 256 }
  else d

/-- `cg14_reg_readb`. -/
def cg14_reg_readb (s : CG14State) (addr : Nat) : Nat :=
  if addr &&& 0xffff = 0x0000 then s.mcr
  else if addr &&& 0xffff = 0x0001 then s.ppr
  else if addr &&& 0xffff = 0x0004 then CG14_MONID_DEFAULT <<< 1
  else if addr &&& 0xffff = 0x0006 then 0x30
  else 0

/-- `cg14_reg_writeb`. -/
def cg14_reg_writeb (s : CG14State) (addr val : Nat) : CG14State :=
  if addr &&& 0xfcff = 0x2000 then
    { s with dac := ADV7152_write s.dac ((addr &&& 0x300) >>> 8) val }
  else if addr &&& 0xff00 = 0x3000 then
    let i := addr &&& 0xff
    if s.xlut i ≠ val then
      { s with dirty := true, xlut := fun j => if j = i then val % 256 else s.xlut j }
    else s
  else
    let s1 := { s with dirty := true }
    if addr &&& 0xffff = 0x0000 then { s1 with mcr := val % 256 }
    else if addr &&& 0xffff = 0x0001 then { s1 with ppr := (val &&& 0xF0) % 256 }
    else s1

/-- `cg14_reg_readw`. -/
def cg14_reg_readw (s : CG14State) (addr : Nat) : Nat :=
  if addr &&& 0xffff = 0x0018 then s.hblank_start
  else if addr &&& 0xffff = 0x001a then s.hblank_clear
  else if addr &&& 0xffff = 0x0022 then s.vblank_start
  else if addr &&& 0xffff = 0x0024 then s.vblank_clear
  else 0

/-- `cg14_reg_writew`. -/
def cg14_reg_writew (s : CG14State) (addr val : Nat) : CG14State :=
  if addr &&& 0xffff = 0x0018 then { s with hblank_start := val % 65536 }
  else if addr &&& 0xffff = 0x001a then { s with hblank_clear := val % 65536, size_changed := true }
  else if addr &&& 0xffff = 0x0022 then { s with vblank_start := val % 65536 }
  else if addr &&& 0xffff = 0x0024 then { s with vblank_clear := val % 65536, size_changed := true }
  else s

/-- `cg14_reg_readl`. -/
def cg14_reg_readl (s : CG14State) (addr : Nat) : Nat :=
  let i := (addr &&& 0x3ff) >>> 2
  if addr &&& 0xfc00 = 0x4000 then s.clut1 i
  else if addr &&& 0xfc00 = 0x5000 then s.clut2 i
  else 0

/-- `cg14_reg_writel`. -/
def cg14_reg_writel (s : CG14State) (addr val : Nat) : CG14State :=
  let s1 := { s with dirty := true }
  let i := (addr &&& 0x3ff) >>> 2
  if addr &&& 0xfc00 = 0x4000 then
    { s1 with clut1 := fun j => if j = i then val % 2 ^ 32 else s.clut1 j }
  else if addr &&& 0xfc00 = 0x5000 then
    { s1 with clut2 := fun j => if j = i then val % 2 ^ 32 else s.clut2 j }
  else s1

/-- `cg14_vram_readb`: the four aliased views of video memory. -/
def cg14_vram_readb (s : CG14State) (addr : Nat) : Nat :=
  if addr &&& 0x3000000 = 0x0000000 then ldub s (addr &&& s.vram_amask)
  else if addr &&& 0x3000000 = 0x1000000 then 0
  else if addr &&& 0x3000000 = 0x2000000 then
    ldub s (((addr <<< 1) &&& s.vram_amask) + ((addr >>> 23) &&& 1))
  else
    ldub s (((addr <<< 2) &&& s.vram_amask) + ((addr >>> 22) &&& 3))

/-- `cg14_vram_writeb`: only window 0 is writable; a write inside the
visible framebuffer area sets `dirty`. -/
def cg14_vram_writeb (s : CG14State) (addr val : Nat) : CG14State :=
  if addr &&& 0x3000000 = 0x0000000 then
    let offset := addr &&& s.vram_amask
    let s1 := stb s offset val
    if offset < 4 * s.width * s.height then { s1 with dirty := true } else s1
  else s

/-- `cg14_vram_readw`: unimplemented, returns 0. -/
def cg14_vram_readw (_s : CG14State) (_addr : Nat) : Nat := 0

/-- `cg14_vram_writew`: unimplemented, but the C code still sets
`s->dirty = 1` before its empty switch. -/
def cg14_vram_writew (s : CG14State) (_addr _val : Nat) : CG14State :=
  { s with dirty := true }

/-- `cg14_vram_readl`. -/
def cg14_vram_readl (s : CG14State) (addr : Nat) : Nat :=
  if addr &&& 0x3000000 = 0x0000000 then ldl_be s (addr &&& s.vram_amask) else 0

/-- `cg14_vram_writel`. -/
def cg14_vram_writel (s : CG14State) (addr val : Nat) : CG14State :=
  if addr &&& 0x3000000 = 0x0000000 then
    let offset := addr &&& s.vram_amask
    let s1 := stl_be s offset val
    if offset < 4 * s.width * s.height then { s1 with dirty := true } else s1
  else s

/-- Concrete device state used to instantiate the verified properties:
a 16 MiB video memory filled with the byte `0x80`, 1×1 geometry, all
registers and tables zero except `clut1`, which holds `0x123456`
everywhere. -/
def cg14_test_state : CG14State where
  vram := fun _ => 0x80
  vram_amask := 2 ^ 24 - 1
  width := 1
  height := 1
  dirty := false
  size_changed := false
  mcr := 0
  ppr := 0
  dac := ⟨0, 0, 0⟩
  hblank_start := 0
  hblank_clear := 0
  vblank_start := 0
  vblank_clear := 0
  xlut := fun _ => 0
  clut1 := fun _ => 0x123456
  clut2 := fun _ => 0

/-- Bit-field extraction: masking with an all-ones block shifted up by
`n` keeps the bits `n`, …, `n + a - 1` in place. -/
theorem and_mask_shift_eq (x a n : Nat) :
    x &&& ((2 ^ a - 1) <<< n) = x / 2 ^ n % 2 ^ a * 2 ^ n := by
  apply Nat.eq_of_testBit_eq
  intro i
  have hrhs : x / 2 ^ n % 2 ^ a * 2 ^ n = 2 ^ n * (x / 2 ^ n % 2 ^ a) + 0 := by ring
  rw [Nat.testBit_land, Nat.testBit_shiftLeft, Nat.testBit_two_pow_sub_one, hrhs,
    Nat.testBit_mul_pow_two_add _ (Nat.two_pow_pos n) i]
  by_cases h : i < n
  · simp [h, Nat.not_le.mpr h]
  · have hge : n ≤ i := Nat.le_of_not_lt h
    have hdiv : x / 2 ^ n = x >>> n := (Nat.shiftRight_eq_div_pow x n).symm
    rw [if_neg h, hdiv, Nat.testBit_mod_two_pow, Nat.testBit_shiftRight,
      Nat.add_sub_cancel' hge]
    simp [hge]
    rw [Bool.and_comm]

/-- Disjoint bitwise or is addition: a multiple of `2 ^ n` or-ed with a
value below `2 ^ n`. -/
theorem lor_eq_add_of_dvd (n : Nat) {a b : Nat} (ha : 2 ^ n ∣ a) (hb : b < 2 ^ n) :
    a ||| b = a + b := by
  obtain ⟨c, rfl⟩ := ha
  apply Nat.eq_of_testBit_eq
  intro i
  have h0 : (2 ^ n * c + b).testBit i = if i < n then b.testBit i else c.testBit (i - n) :=
    Nat.testBit_mul_pow_two_add c hb i
  have h1 : (2 ^ n * c).testBit i = if i < n then false else c.testBit (i - n) := by
    have := Nat.testBit_mul_pow_two_add c (Nat.two_pow_pos n) i
    simpa using this
  rw [Nat.testBit_lor, h0, h1]
  by_cases h : i < n
  · simp [h]
  · have hbi : b.testBit i = false :=
      Nat.testBit_lt_two_pow
        (lt_of_lt_of_le hb (Nat.pow_le_pow_right (by norm_num) (Nat.le_of_not_lt h)))
    simp [h, hbi]

/-- Packing three bytes into a 24-bit word is plain arithmetic. -/
theorem byte_compose (b g r : Nat) (hg : g < 256) (hr : r < 256) :
    b <<< 16 ||| g <<< 8 ||| r = b * 65536 + g * 256 + r := by
  rw [Nat.shiftLeft_eq, Nat.shiftLeft_eq]
  have h1 : b * 2 ^ 16 ||| g * 2 ^ 8 = b * 65536 + g * 256 := by
    rw [lor_eq_add_of_dvd 16 ⟨b, by ring⟩ (by norm_num; omega)]
    norm_num
  rw [h1, lor_eq_add_of_dvd 8 ⟨b * 256 + g, by ring⟩ (by norm_num; omega)]

/-- Masking with `1` extracts the parity. -/
theorem and_one_eq_mod_two (x : Nat) : x &&& 1 = x % 2 := by
  have h1 : x &&& 1 = x &&& (2 ^ 1 - 1) := by norm_num
  rw [h1, Nat.and_pow_two_sub_one_eq_mod, pow_one]

/-- C9: for a pixel whose composed colour is `b <<< 16 ||| g <<< 8 ||| r`
(blue in bits 23..16, green in 15..8, red in 7..0), a blue-first host
surface receives the value unchanged (`abgr &&& 0xFFFFFF`), and any
other surface receives the value with the red and blue byte positions
swapped, the green byte kept in place, and the high byte zero. -/
theorem cg14_c9_channel_order (b g r : Nat) (hb : b < 256) (hg : g < 256) (hr : r < 256) :
    to_surface true (b <<< 16 ||| g <<< 8 ||| r) = b <<< 16 ||| g <<< 8 ||| r ∧
    to_surface false (b <<< 16 ||| g <<< 8 ||| r) = r <<< 16 ||| g <<< 8 ||| b := by
  constructor
  · simp only [to_surface, if_pos]
    rw [byte_compose b g r hg hr]
    have h24 : (0xFFFFFF : Nat) = 2 ^ 24 - 1 := by decide
    rw [h24, Nat.and_pow_two_sub_one_eq_mod]
    omega
  · simp only [to_surface, Bool.false_eq_true, if_false, bgr_to_rgb]
    rw [byte_compose b g r hg hr, byte_compose r g b hg hb]
    set x := b * 65536 + g * 256 + r with hx
    have e1 : x &&& 0x00FF00 = g * 256 := by
      have h : (0x00FF00 : Nat) = (2 ^ 8 - 1) <<< 8 := by decide
      rw [h, and_mask_shift_eq]
      omega
    have e2 : x &&& 0x0000FF = r := by
      have h : (0x0000FF : Nat) = 2 ^ 8 - 1 := by decide
      rw [h, Nat.and_pow_two_sub_one_eq_mod]
      omega
    have e3 : x &&& 0xFF0000 = b * 65536 := by
      have h : (0xFF0000 : Nat) = (2 ^ 8 - 1) <<< 16 := by decide
      rw [h, and_mask_shift_eq]
      omega
    simp only [e1, e2, e3]
    have e4 : (b * 65536) >>> 16 = b := by
      rw [Nat.shiftRight_eq_div_pow]; omega
    have e5 : g * 256 ||| r <<< 16 = r * 65536 + g * 256 := by
      rw [Nat.shiftLeft_eq, Nat.lor_comm, lor_eq_add_of_dvd 16 ⟨r, by ring⟩ (by omega)]
    rw [e4, e5, lor_eq_add_of_dvd 8 ⟨r * 256 + g, by ring⟩ (by omega)]

/-- C9 witness: with r=0x11, g=0x22, b=0x33 and a non-blue-first
surface, the emitted word is the red/blue byte-swapped composition. -/
theorem cg14_c9_channel_order_witness :
    (0x33 < 256 ∧ 0x22 < 256 ∧ 0x11 < 256) ∧
    to_surface false (0x33 <<< 16 ||| 0x22 <<< 8 ||| 0x11) = 0x11 <<< 16 ||| 0x22 <<< 8 ||| 0x33 :=
  ⟨by decide, (cg14_c9_channel_order 0x33 0x22 0x11 (by decide) (by decide) (by decide)).2⟩

/-- C2: every byte read in video-memory window 2 returns the stored byte
at offset `((a <<< 1) &&& vram_amask) + ((a >>> 23) &&& 1)`, and — when
the video-memory size is a power of two of at most 16 MiB — the two
addresses of a pair differing only in address bit 23 map to adjacent
storage offsets (they differ by exactly 1). -/
theorem cg14_c2_window2 (s : CG14State) (k : Nat) (hk : k ≤ 24)
    (hm : s.vram_amask = 2 ^ k - 1) :
    (∀ a, a &&& 0x3000000 = 0x2000000 →
      cg14_vram_readb s a = ldub s (((a <<< 1) &&& s.vram_amask) + ((a >>> 23) &&& 1))) ∧
    (∀ a, a &&& 0x3000000 = 0x2000000 → a &&& 0x800000 = 0 →
      (a + 0x800000) &&& 0x3000000 = 0x2000000 ∧
      (((a + 0x800000) <<< 1) &&& s.vram_amask) + (((a + 0x800000) >>> 23) &&& 1)
        = (((a <<< 1) &&& s.vram_amask) + ((a >>> 23) &&& 1)) + 1) := by
  constructor
  · intro a ha
    simp [cg14_vram_readb, ha]
  · intro a ha hb
    have h3 : (0x3000000 : Nat) = (2 ^ 2 - 1) <<< 24 := by decide
    have h23 : (0x800000 : Nat) = (2 ^ 1 - 1) <<< 23 := by decide
    rw [h3, and_mask_shift_eq] at ha
    rw [h23, and_mask_shift_eq] at hb
    have ha' : a / 16777216 % 4 = 2 := by omega
    have hb' : a / 8388608 % 2 = 0 := by omega
    obtain ⟨t, ht⟩ : (2 : Nat) ^ k ∣ 2 ^ 24 := pow_dvd_pow 2 hk
    constructor
    · rw [h3, and_mask_shift_eq]
      omega
    · have hsh1 : ((a + 0x800000) <<< 1) &&& s.vram_amask = (a <<< 1) &&& s.vram_amask := by
        rw [hm, Nat.shiftLeft_eq, Nat.shiftLeft_eq,
          Nat.and_pow_two_sub_one_eq_mod, Nat.and_pow_two_sub_one_eq_mod]
        have hexp : (a + 0x800000) * 2 ^ 1 = a * 2 ^ 1 + 2 ^ k * t := by
          rw [← ht]; ring
        rw [hexp, Nat.add_mul_mod_self_left]
      have hph1 : ((a + 0x800000) >>> 23) &&& 1 = 1 := by
        rw [Nat.shiftRight_eq_div_pow, and_one_eq_mod_two]
        have hstep : (a + 0x800000) / 2 ^ 23 = a / 2 ^ 23 + 1 := by
          have he : (0x800000 : Nat) = 2 ^ 23 := by decide
          rw [he, Nat.add_div_right _ (Nat.two_pow_pos 23)]
        rw [hstep]
        omega
      have hph0 : (a >>> 23) &&& 1 = 0 := by
        rw [Nat.shiftRight_eq_div_pow, and_one_eq_mod_two]
        omega
      rw [hsh1, hph1, hph0]

/-- C2 witness: with a 16 MiB video memory, the pair of window-2
addresses `0x2000000` and `0x2800000` (differing only in bit 23) map to
adjacent storage offsets, and the byte read follows the offset
formula. -/
theorem cg14_c2_window2_witness :
    (24 ≤ 24 ∧ cg14_test_state.vram_amask = 2 ^ 24 - 1 ∧
      0x2000000 &&& 0x3000000 = 0x2000000 ∧ 0x2000000 &&& 0x800000 = 0) ∧
    cg14_vram_readb cg14_test_state 0x2000000
      = ldub cg14_test_state
          (((0x2000000 <<< 1) &&& cg14_test_state.vram_amask) + ((0x2000000 >>> 23) &&& 1)) ∧
    ((0x2000000 + 0x800000) &&& 0x3000000 = 0x2000000 ∧
      (((0x2000000 + 0x800000) <<< 1) &&& cg14_test_state.vram_amask)
          + (((0x2000000 + 0x800000) >>> 23) &&& 1)
        = (((0x2000000 <<< 1) &&& cg14_test_state.vram_amask)
            + ((0x2000000 >>> 23) &&& 1)) + 1) :=
  ⟨by decide,
   (cg14_c2_window2 cg14_test_state 24 (by decide) rfl).1 0x2000000 (by decide),
   (cg14_c2_window2 cg14_test_state 24 (by decide) rfl).2 0x2000000 (by decide) (by decide)⟩

/-- The `size_changed` preamble of the refresh never clears `dirty`. -/
theorem cg14_resize_step_dirty (s : CG14State) (h : s.dirty = true) :
    (cg14_resize_step s).1.dirty = true := by
  simp only [cg14_resize_step]
  split_ifs <;> simp [h]

/-- C3: a refresh call while the host surface reports a pixel depth
other than 32 bits is refused: the host framebuffer is left untouched,
no frame is presented, and the dirty flag is not cleared, so rendering
is retried on a later refresh. -/
theorem cg14_c3_refuse_non32 (s : CG14State) (bpp : Nat) (is_bgr : Bool)
    (fb : Nat → Nat → Nat) (h : bpp ≠ 32) :
    (cg14_update_display s bpp is_bgr fb).fb = fb ∧
    (cg14_update_display s bpp is_bgr fb).presented = false ∧
    (s.dirty = true → (cg14_update_display s bpp is_bgr fb).st.dirty = true) := by
  simp only [cg14_update_display]
  split_ifs <;>
    exact ⟨rfl, rfl, fun hdd => cg14_resize_step_dirty s hdd⟩

/-- C3 witness: a dirty device refreshed against a 24-bit surface keeps
its framebuffer, presents nothing, and stays dirty. -/
theorem cg14_c3_refuse_non32_witness :
    (24 ≠ 32 ∧ ({ cg14_test_state with dirty := true } : CG14State).dirty = true) ∧
    (cg14_update_display { cg14_test_state with dirty := true } 24 true (fun _ _ => 0)).fb
      = (fun _ _ => 0) ∧
    (cg14_update_display { cg14_test_state with dirty := true } 24 true (fun _ _ => 0)).presented
      = false ∧
    (cg14_update_display { cg14_test_state with dirty := true } 24 true (fun _ _ => 0)).st.dirty
      = true := by
  have h := cg14_c3_refuse_non32 { cg14_test_state with dirty := true } 24 true
    (fun _ _ => 0) (by decide)
  exact ⟨⟨by decide, rfl⟩, h.1, h.2.1, h.2.2 rfl⟩

/-- C4, evaluated at the failing input: writing `0x02` (reset bit 0
clear) to DAC sub-register 3 does not reset `rgb_seq` — the C condition
`!val & 0x01` fires only for `val == 0` — while the claim requires a
reset for every value with bit 0 clear.  Sub-registers 0 and 1 behave as
claimed. -/
theorem cg14_c4_dac_mode_reset :
    (ADV7152_write ⟨0, 0, 5⟩ 3 2).rgb_seq = 5 ∧
    (ADV7152_write ⟨0, 0, 5⟩ 3 2).mode = 2 ∧
    (ADV7152_write ⟨0, 0, 5⟩ 3 0).rgb_seq = 0 ∧
    (ADV7152_write ⟨7, 9, 5⟩ 0 3).address = 3 ∧
    (ADV7152_write ⟨7, 9, 5⟩ 0 3).rgb_seq = 0 ∧
    (ADV7152_write ⟨7, 9, 5⟩ 1 3).rgb_seq = 6 := by decide

/-- C5 counterexample: a byte write to the unrecognized control offset
`0x0100` does change the device state — it sets the dirty flag, so the
state is not left entirely unchanged as claimed. -/
theorem cg14_c5_counterexample :
    cg14_test_state.dirty = false ∧
    (cg14_reg_writeb cg14_test_state 0x0100 0).dirty = true := by decide

/-- C5 (amended): for every control-region offset matching no recognized
range, a byte read returns 0, and a byte write leaves every register,
table and video memory unchanged except that it sets the dirty flag. -/
theorem cg14_c5_unknown_offset (s : CG14State) (addr val : Nat)
    (h1 : addr &&& 0xfcff ≠ 0x2000) (h2 : addr &&& 0xff00 ≠ 0x3000)
    (h3 : addr &&& 0xffff ≠ 0x0000) (h4 : addr &&& 0xffff ≠ 0x0001)
    (h5 : addr &&& 0xffff ≠ 0x0004) (h6 : addr &&& 0xffff ≠ 0x0006)
    (h7 : addr &&& 0xffff ≠ 0x0007) :
    cg14_reg_readb s addr = 0 ∧
    cg14_reg_writeb s addr val = { s with dirty := true } := by
  constructor
  · simp [cg14_reg_readb, h3, h4, h5, h6]
  · simp [cg14_reg_writeb, h1, h2, h3, h4]

/-- C5 witness: the unknown offset `0x0100`. -/
theorem cg14_c5_unknown_offset_witness :
    (0x0100 &&& 0xfcff ≠ 0x2000 ∧ 0x0100 &&& 0xff00 ≠ 0x3000 ∧
      0x0100 &&& 0xffff ≠ 0x0000 ∧ 0x0100 &&& 0xffff ≠ 0x0001 ∧
      0x0100 &&& 0xffff ≠ 0x0004 ∧ 0x0100 &&& 0xffff ≠ 0x0006 ∧
      0x0100 &&& 0xffff ≠ 0x0007) ∧
    cg14_reg_readb cg14_test_state 0x0100 = 0 ∧
    cg14_reg_writeb cg14_test_state 0x0100 7 = { cg14_test_state with dirty := true } :=
  ⟨by decide,
   cg14_c5_unknown_offset cg14_test_state 0x0100 7 (by decide) (by decide) (by decide)
     (by decide) (by decide) (by decide) (by decide)⟩

/-- C6: a byte or 32-bit word write to video-memory window 0 lands in
storage at `addr &&& vram_amask` (big-endian for the word), and sets the
dirty flag exactly when the masked offset lies inside
`4 * width * height`; beyond that bound the dirty flag is left
unchanged. -/
theorem cg14_c6_window0_dirty (s : CG14State) (addr val : Nat)
    (h : addr &&& 0x3000000 = 0) :
    ((cg14_vram_writeb s addr val).vram (addr &&& s.vram_amask) = val % 256) ∧
    ((cg14_vram_writeb s addr val).dirty
      = if addr &&& s.vram_amask < 4 * s.width * s.height then true else s.dirty) ∧
    ((cg14_vram_writel s addr val).vram (addr &&& s.vram_amask) = (val >>> 24) % 256) ∧
    ((cg14_vram_writel s addr val).vram ((addr &&& s.vram_amask) + 1) = (val >>> 16) % 256) ∧
    ((cg14_vram_writel s addr val).vram ((addr &&& s.vram_amask) + 2) = (val >>> 8) % 256) ∧
    ((cg14_vram_writel s addr val).vram ((addr &&& s.vram_amask) + 3) = val % 256) ∧
    ((cg14_vram_writel s addr val).dirty
      = if addr &&& s.vram_amask < 4 * s.width * s.height then true else s.dirty) := by
  refine ⟨?_, ?_, ?_, ?_, ?_, ?_, ?_⟩ <;>
    simp only [cg14_vram_writeb, cg14_vram_writel, h, stl_be, stb] <;>
    split_ifs <;>
    first | rfl | (exfalso; omega) | simp

/-- C6 witness: a write at window-0 address 0 of a 1×1 device (offset 0,
inside the visible `4 * 1 * 1` bytes). -/
theorem cg14_c6_window0_dirty_witness :
    (0 &&& 0x3000000 = 0) ∧
    ((cg14_vram_writeb cg14_test_state 0 0xAB).vram (0 &&& cg14_test_state.vram_amask)
      = 0xAB % 256) ∧
    ((cg14_vram_writel cg14_test_state 0 0xAABBCCDD).vram
        ((0 &&& cg14_test_state.vram_amask) + 3) = 0xAABBCCDD % 256) ∧
    ((cg14_vram_writel cg14_test_state 0 0xAABBCCDD).dirty
      = if 0 &&& cg14_test_state.vram_amask < 4 * cg14_test_state.width * cg14_test_state.height
          then true else cg14_test_state.dirty) :=
  ⟨by decide,
   (cg14_c6_window0_dirty cg14_test_state 0 0xAB (by decide)).1,
   (cg14_c6_window0_dirty cg14_test_state 0 0xAABBCCDD (by decide)).2.2.2.2.2.1,
   (cg14_c6_window0_dirty cg14_test_state 0 0xAABBCCDD (by decide)).2.2.2.2.2.2⟩

/-- C7: halfword writes to `hblank_clear` (0x001a) and `vblank_clear`
(0x0024) store the 16-bit value and set the pending-resize flag, while
writes to `hblank_start` (0x0018) and `vblank_start` (0x0022) store the
value without touching the flag. -/
theorem cg14_c7_timing_writes (s : CG14State) (val : Nat) :
    cg14_reg_writew s 0x0018 val = { s with hblank_start := val % 65536 } ∧
    (cg14_reg_writew s 0x0018 val).size_changed = s.size_changed ∧
    cg14_reg_writew s 0x001a val
      = { s with hblank_clear := val % 65536, size_changed := true } ∧
    cg14_reg_writew s 0x0022 val = { s with vblank_start := val % 65536 } ∧
    (cg14_reg_writew s 0x0022 val).size_changed = s.size_changed ∧
    cg14_reg_writew s 0x0024 val
      = { s with vblank_clear := val % 65536, size_changed := true } := by
  have e18 : (0x0018 : Nat) &&& 0xffff = 0x0018 := by decide
  have e1a : (0x001a : Nat) &&& 0xffff = 0x001a := by decide
  have e22 : (0x0022 : Nat) &&& 0xffff = 0x0022 := by decide
  have e24 : (0x0024 : Nat) &&& 0xffff = 0x0024 := by decide
  refine ⟨?_, ?_, ?_, ?_, ?_, ?_⟩ <;> simp [cg14_reg_writew, e18, e1a, e22, e24]

/-- C8: a 32-bit write to a CLUT1 or CLUT2 offset followed by a 32-bit
read at the same offset returns the written value unchanged. -/
theorem cg14_c8_clut_roundtrip (s : CG14State) (addr val : Nat) (hv : val < 2 ^ 32)
    (h : addr &&& 0xfc00 = 0x4000 ∨ addr &&& 0xfc00 = 0x5000) :
    cg14_reg_readl (cg14_reg_writel s addr val) addr = val := by
  rcases h with h | h <;> simp [cg14_reg_readl, cg14_reg_writel, h] <;> omega

/-- C8 witness: round-trip of `0x89ABCDEF` through CLUT1 offset
`0x4014` (index 5). -/
theorem cg14_c8_clut_roundtrip_witness :
    (0x89ABCDEF < 2 ^ 32 ∧
      (0x4014 &&& 0xfc00 = 0x4000 ∨ 0x4014 &&& 0xfc00 = 0x5000)) ∧
    cg14_reg_readl (cg14_reg_writel cg14_test_state 0x4014 0x89ABCDEF) 0x4014 = 0x89ABCDEF :=
  ⟨by decide,
   cg14_c8_clut_roundtrip cg14_test_state 0x4014 0x89ABCDEF (by decide) (Or.inl (by decide))⟩

/-- C10: a byte write to the pixel-packing-ratio register (offset
0x0001) keeps only the high nibble — a subsequent byte read returns
`val &&& 0xF0`. -/
theorem cg14_c10_ppr_high_nibble (s : CG14State) (val : Nat) :
    cg14_reg_readb (cg14_reg_writeb s 0x0001 val) 0x0001 = val &&& 0xF0 := by
  have hlt : val &&& 0xF0 < 256 := lt_of_le_of_lt Nat.and_le_right (by norm_num)
  have ea : (0x0001 : Nat) &&& 0xfcff = 0x0001 := by decide
  have eb : (0x0001 : Nat) &&& 0xff00 = 0 := by decide
  have ec : (0x0001 : Nat) &&& 0xffff = 0x0001 := by decide
  simp [cg14_reg_readb, cg14_reg_writeb, ea, eb, ec, Nat.mod_eq_of_lt hlt]

/-- In 8-bit mode one pass of the pixel loop keeps `xlut_val` (it stays
the packing-ratio register value) and consumes one source byte. -/
theorem cg14_pix_step_8_thread (s : CG14State) (is_bgr : Bool) (xv pos : Nat) :
    (cg14_pix_step s 8 is_bgr xv pos).2.1 = xv ∧
    (cg14_pix_step s 8 is_bgr xv pos).2.2 = pos + 1 := by
  simp [cg14_pix_step]

/-- In the 16- and 32-bit modes the loop body overwrites `xlut_val`
before using it, so the incoming value is irrelevant. -/
theorem cg14_pix_step_irrel (s : CG14State) (pm : Nat) (is_bgr : Bool)
    (h : pm ≠ 8) (xv xv' pos : Nat) :
    cg14_pix_step s pm is_bgr xv pos = cg14_pix_step s pm is_bgr xv' pos := by
  simp [cg14_pix_step, h]

/-- Pixel `i` of an 8-bit-mode scan line comes from source byte
`pos + i`, with the threaded `xlut_val` unchanged. -/
theorem cg14_line_getD_8 (s : CG14State) (is_bgr : Bool) :
    ∀ n i xv pos, i < n →
      (cg14_draw_line_go s 8 is_bgr n xv pos).getD i 0
        = (cg14_pix_step s 8 is_bgr xv (pos + i)).1 := by
  intro n
  induction n with
  | zero => intro i xv pos h; exact absurd h (Nat.not_lt_zero i)
  | succ n ih =>
    intro i xv pos h
    cases i with
    | zero => simp [cg14_draw_line_go]
    | succ i =>
      have h2 := cg14_pix_step_8_thread s is_bgr xv pos
      have e1 : (cg14_draw_line_go s 8 is_bgr (n + 1) xv pos).getD (i + 1) 0
          = (cg14_draw_line_go s 8 is_bgr n (cg14_pix_step s 8 is_bgr xv pos).2.1
              (cg14_pix_step s 8 is_bgr xv pos).2.2).getD i 0 := by
        simp [cg14_draw_line_go]
      rw [e1, h2.1, h2.2, ih i xv (pos + 1) (Nat.lt_of_succ_lt_succ h)]
      have e2 : pos + 1 + i = pos + (i + 1) := by omega
      rw [e2]

/-- Pixel `i` of a 16-bit-mode scan line comes from source bytes
`pos + 2 i` and `pos + 2 i + 1`. -/
theorem cg14_line_getD_16 (s : CG14State) (is_bgr : Bool) :
    ∀ n i xv pos, i < n →
      (cg14_draw_line_go s 16 is_bgr n xv pos).getD i 0
        = (cg14_pix_step s 16 is_bgr 0 (pos + 2 * i)).1 := by
  intro n
  induction n with
  | zero => intro i xv pos h; exact absurd h (Nat.not_lt_zero i)
  | succ n ih =>
    intro i xv pos h
    cases i with
    | zero =>
      have hirr := cg14_pix_step_irrel s 16 is_bgr (by norm_num) xv 0 pos
      simp [cg14_draw_line_go, hirr]
    | succ i =>
      have hnext : (cg14_pix_step s 16 is_bgr xv pos).2.2 = pos + 2 := by
        simp [cg14_pix_step]
      have e1 : (cg14_draw_line_go s 16 is_bgr (n + 1) xv pos).getD (i + 1) 0
          = (cg14_draw_line_go s 16 is_bgr n (cg14_pix_step s 16 is_bgr xv pos).2.1
              (cg14_pix_step s 16 is_bgr xv pos).2.2).getD i 0 := by
        simp [cg14_draw_line_go]
      rw [e1, hnext, ih i _ (pos + 2) (Nat.lt_of_succ_lt_succ h)]
      have e2 : pos + 2 + 2 * i = pos + 2 * (i + 1) := by omega
      rw [e2]

/-- Pixel `i` of a 32-bit-mode scan line comes from source bytes
`pos + 4 i`, …, `pos + 4 i + 3`. -/
theorem cg14_line_getD_32 (s : CG14State) (is_bgr : Bool) :
    ∀ n i xv pos, i < n →
      (cg14_draw_line_go s 32 is_bgr n xv pos).getD i 0
        = (cg14_pix_step s 32 is_bgr 0 (pos + 4 * i)).1 := by
  intro n
  induction n with
  | zero => intro i xv pos h; exact absurd h (Nat.not_lt_zero i)
  | succ n ih =>
    intro i xv pos h
    cases i with
    | zero =>
      have hirr := cg14_pix_step_irrel s 32 is_bgr (by norm_num) xv 0 pos
      simp [cg14_draw_line_go, hirr]
    | succ i =>
      have hnext : (cg14_pix_step s 32 is_bgr xv pos).2.2 = pos + 4 := by
        simp [cg14_pix_step]
      have e1 : (cg14_draw_line_go s 32 is_bgr (n + 1) xv pos).getD (i + 1) 0
          = (cg14_draw_line_go s 32 is_bgr n (cg14_pix_step s 32 is_bgr xv pos).2.1
              (cg14_pix_step s 32 is_bgr xv pos).2.2).getD i 0 := by
        simp [cg14_draw_line_go]
      rw [e1, hnext, ih i _ (pos + 4) (Nat.lt_of_succ_lt_succ h)]
      have e2 : pos + 4 + 4 * i = pos + 4 * (i + 1) := by omega
      rw [e2]

/-- C1: palette selection for every rendered pixel.  The selected XLUT
value is the packing-ratio register in 8-bit mode and
`xlut[first consumed byte]` in the 16/32-bit modes; value 0 yields the
direct colour `(blue <<< 16) ||| (green <<< 8) ||| red` (with
green = red = blue outside 32-bit mode), value 0x40 yields
`clut1[index]` with `index` the first consumed byte, and any other
value yields 0 — each then converted to the host surface order. -/
theorem cg14_c1_palette_rule (s : CG14State) (is_bgr : Bool) (pos i : Nat)
    (hi : i < s.width) :
    ((s.ppr = 0 →
        (cg14_draw_line32 s 8 is_bgr pos).getD i 0
          = to_surface is_bgr
              (ldub s (pos + i) <<< 16 ||| ldub s (pos + i) <<< 8 ||| ldub s (pos + i))) ∧
      (s.ppr = 0x40 →
        (cg14_draw_line32 s 8 is_bgr pos).getD i 0
          = to_surface is_bgr (s.clut1 (ldub s (pos + i)))) ∧
      (s.ppr ≠ 0 → s.ppr ≠ 0x40 →
        (cg14_draw_line32 s 8 is_bgr pos).getD i 0 = to_surface is_bgr 0)) ∧
    ((s.xlut (ldub s (pos + 2 * i)) = 0 →
        (cg14_draw_line32 s 16 is_bgr pos).getD i 0
          = to_surface is_bgr
              (ldub s (pos + 2 * i + 1) <<< 16 ||| ldub s (pos + 2 * i + 1) <<< 8
                ||| ldub s (pos + 2 * i + 1))) ∧
      (s.xlut (ldub s (pos + 2 * i)) = 0x40 →
        (cg14_draw_line32 s 16 is_bgr pos).getD i 0
          = to_surface is_bgr (s.clut1 (ldub s (pos + 2 * i)))) ∧
      (s.xlut (ldub s (pos + 2 * i)) ≠ 0 → s.xlut (ldub s (pos + 2 * i)) ≠ 0x40 →
        (cg14_draw_line32 s 16 is_bgr pos).getD i 0 = to_surface is_bgr 0)) ∧
    ((s.xlut (ldub s (pos + 4 * i)) = 0 →
        (cg14_draw_line32 s 32 is_bgr pos).getD i 0
          = to_surface is_bgr
              (ldub s (pos + 4 * i + 1) <<< 16 ||| ldub s (pos + 4 * i + 2) <<< 8
                ||| ldub s (pos + 4 * i + 3))) ∧
      (s.xlut (ldub s (pos + 4 * i)) = 0x40 →
        (cg14_draw_line32 s 32 is_bgr pos).getD i 0
          = to_surface is_bgr (s.clut1 (ldub s (pos + 4 * i)))) ∧
      (s.xlut (ldub s (pos + 4 * i)) ≠ 0 → s.xlut (ldub s (pos + 4 * i)) ≠ 0x40 →
        (cg14_draw_line32 s 32 is_bgr pos).getD i 0 = to_surface is_bgr 0)) := by
  have L8 : (cg14_draw_line32 s 8 is_bgr pos).getD i 0
      = (cg14_pix_step s 8 is_bgr s.ppr (pos + i)).1 :=
    cg14_line_getD_8 s is_bgr s.width i s.ppr pos hi
  have L16 : (cg14_draw_line32 s 16 is_bgr pos).getD i 0
      = (cg14_pix_step s 16 is_bgr 0 (pos + 2 * i)).1 :=
    cg14_line_getD_16 s is_bgr s.width i s.ppr pos hi
  have L32 : (cg14_draw_line32 s 32 is_bgr pos).getD i 0
      = (cg14_pix_step s 32 is_bgr 0 (pos + 4 * i)).1 :=
    cg14_line_getD_32 s is_bgr s.width i s.ppr pos hi
  refine ⟨⟨fun hp => ?_, fun hp => ?_, fun hp hq => ?_⟩,
          ⟨fun hp => ?_, fun hp => ?_, fun hp hq => ?_⟩,
          ⟨fun hp => ?_, fun hp => ?_, fun hp hq => ?_⟩⟩
  · rw [L8]; simp [cg14_pix_step, hp]
  · rw [L8]; simp [cg14_pix_step, hp]
  · rw [L8]; simp [cg14_pix_step, hp, hq]
  · rw [L16]; simp [cg14_pix_step, hp]
  · rw [L16]; simp [cg14_pix_step, hp]
  · rw [L16]; simp [cg14_pix_step, hp, hq]
  · rw [L32]; simp [cg14_pix_step, hp]
  · rw [L32]; simp [cg14_pix_step, hp]
  · rw [L32]; simp [cg14_pix_step, hp, hq]

/-- C1 witness: the three 8-bit instances from the claim — XLUT register
0 with source byte 0x80 gives the grey pixel 0x808080, XLUT register
0x40 with source index 5 gives `clut1[5]`, and XLUT register 0x01 gives
the zero pixel. -/
theorem cg14_c1_palette_rule_witness :
    (0 < cg14_test_state.width ∧ cg14_test_state.ppr = 0) ∧
    (cg14_draw_line32 cg14_test_state 8 true 0).getD 0 0 = 0x808080 ∧
    (cg14_draw_line32 { cg14_test_state with ppr := 0x40, vram := fun _ => 5 } 8 true 0).getD 0 0
      = ({ cg14_test_state with ppr := 0x40, vram := fun _ => 5 } : CG14State).clut1 5 ∧
    (cg14_draw_line32 { cg14_test_state with ppr := 0x01 } 8 true 0).getD 0 0 = 0 := by
  refine ⟨⟨by decide, rfl⟩, ?_, ?_, ?_⟩
  · exact (((cg14_c1_palette_rule cg14_test_state true 0 0 (by decide)).1).1 rfl).trans
      (by decide)
  · exact (((cg14_c1_palette_rule { cg14_test_state with ppr := 0x40, vram := fun _ => 5 }
      true 0 0 (by decide)).1).2.1 rfl).trans (by decide)
  · exact (((cg14_c1_palette_rule { cg14_test_state with ppr := 0x01 }
      true 0 0 (by decide)).1).2.2 (by decide) (by decide)).trans (by decide)
